import Mathlib

/-!
Shallow embedding of the calorie-tracker backend (`index.py`).

The persistence layer (SQLAlchemy over three tables `users`, `food_items`,
`food_logs`) is modelled as a pure `DB` value holding the three tables as
lists of rows together with the auto-increment counters for the integer
primary keys.  Each HTTP handler becomes a pure function
`DB → args → Except Err result × DB`: the first component is the JSON
response (or the raised `HTTPException`), the second the database after the
request.  SQL `Float` columns are modelled as `ℚ` (the arithmetic the
handlers perform — division by 100, multiplication, summation — is exact on
the values the spec talks about), SQL `Date` as `ℕ` (an abstract day number;
`date.isoformat()` is injective on dates, so keying the calendar dictionary
by the date itself is the same keying as by its ISO string).

The two calls to the generative-language service in
`analyze_and_find_food` are abstracted as oracle arguments: each call
either raises (`Except.error` carrying the exception text) or yields the
parsed JSON object, represented with `Option` fields so that
`dict.get(key, default)` defaulting is modelled faithfully.
-/

namespace CalorieTracker

/-- A day, abstractly.  `date.isoformat()` is injective, so the calendar
dictionary keyed by ISO strings is modelled keyed by the date itself. -/
abbrev DateT := Nat

/-- A row of the `users` table (`class User`). -/
structure UserRow where
  id : Nat
  username : String
  password : String
deriving DecidableEq

/-- A row of the `food_items` table (`class FoodItem`). -/
structure FoodItemRow where
  id : Nat
  name : String
  calories : ℚ
  protein : ℚ
  carbs : ℚ
  fat : ℚ
  fiber : ℚ
  serving_size_unit : String
  user_id : Nat
deriving DecidableEq

/-- A row of the `food_logs` table (`class FoodLog`). -/
structure FoodLogRow where
  id : Nat
  date : DateT
  meal_type : String
  quantity : ℚ
  user_id : Nat
  food_item_id : Nat
deriving DecidableEq

/-- The database: the three tables plus the auto-increment counters of the
integer primary keys. -/
structure DB where
  users : List UserRow
  food_items : List FoodItemRow
  food_logs : List FoodLogRow
  next_user_id : Nat
  next_item_id : Nat
  next_log_id : Nat
deriving DecidableEq

/-- An `HTTPException`: the handlers raise 404, 401 and 500. -/
inductive Err where
  | notFound (detail : String)
  | unauthorized (detail : String)
  | internal (detail : String)
deriving DecidableEq

/-- `db.query(User).filter(User.username == username).first()`. -/
def findUser (db : DB) (username : String) : Option UserRow :=
  db.users.find? (fun u => u.username == username)

/-- `POST /api/login` (`def login`): create the user on an unseen
username, otherwise compare the stored password exactly. -/
def login (db : DB) (username password : String) : Except Err String × DB :=
  match findUser db username with
  | none =>
      (Except.ok "User created.",
       { db with
           users := db.users ++ [⟨db.next_user_id, username, password⟩],
           next_user_id := db.next_user_id + 1 })
  | some u =>
      if u.password = password then (Except.ok "Login successful.", db)
      else (Except.error (Err.unauthorized "Incorrect password"), db)

/-! ### Python `str.replace`

`serving_size_unit = f"100{unit.replace('gram','g').replace('s','')}"`
uses Python's `str.replace`, which replaces every non-overlapping
occurrence left to right.  We implement it by structural recursion on a
fuel bound (one character is consumed per step, so the length of the
string is enough fuel for a non-empty pattern; the handler never calls it
with an empty pattern, for which we return the string unchanged). -/

def pyReplaceAux (pat rep : List Char) : Nat → List Char → List Char
  | 0, s => s
  | _ + 1, [] => []
  | fuel + 1, c :: rest =>
      if pat.isPrefixOf (c :: rest) then
        rep ++ pyReplaceAux pat rep fuel ((c :: rest).drop pat.length)
      else
        c :: pyReplaceAux pat rep fuel rest

/-- Python `s.replace(pat, rep)` for a non-empty pattern. -/
def pyReplace (s pat rep : String) : String :=
  ⟨pyReplaceAux pat.data rep.data s.data.length s.data⟩

/-- Lines 161–167 of `index.py`: normalize the extracted quantity against
the extracted (already lower-cased) unit.

```
normalized_quantity = float(quantity)
serving_size_unit = unit
if unit in ['ml', 'g', 'gram', 'grams']:
    normalized_quantity = float(quantity) / 100.0
    serving_size_unit = f"100{unit.replace('gram','g').replace('s','')}"
``` -/
def normalizeUnit (quantity : ℚ) (unit : String) : ℚ × String :=
  if unit ∈ ["ml", "g", "gram", "grams"] then
    (quantity / 100, "100" ++ pyReplace (pyReplace unit "gram" "g") "s" "")
  else
    (quantity, unit)

/-! ### `POST /api/analyze-and-find-food`

The two generative-language calls are oracles.  A call either raises
(`Except.error e`, covering network errors and `json.loads` failures — the
handler's `try`/`except` turns either into a 500) or yields the parsed
JSON object.  `Option` fields model `parsed.get(key, default)`. -/

/-- The parsed reply of the structured-extraction prompt:
`{"quantity": …, "unit": …, "item_name": …}`, each key possibly absent. -/
structure ParsedExtraction where
  quantity : Option ℚ
  unit : Option String
  item_name : Option String
deriving DecidableEq

/-- The parsed reply of the nutrition prompt:
`{"name", "calories", "protein", "carbs", "fat", "fiber"}`. -/
structure ParsedNutrition where
  name : Option String
  calories : Option ℚ
  protein : Option ℚ
  carbs : Option ℚ
  fat : Option ℚ
  fiber : Option ℚ
deriving DecidableEq

/-- Python `str.lower()`.  (`String.toLower` in Lean is extensionally the
same ASCII lowering but is defined through a non-reducible `mapAux` loop;
we map over the character list directly so that concrete instances
evaluate.) -/
def pyLower (s : String) : String := ⟨s.data.map Char.toLower⟩

/-- Case analysis for `Except` results. -/
instance {ε α} [DecidableEq ε] [DecidableEq α] : DecidableEq (Except ε α)
  | .error a, .error b =>
      if h : a = b then isTrue (by rw [h])
      else isFalse (by intro hc; cases hc; exact h rfl)
  | .error _, .ok _ => isFalse (by intro hc; cases hc)
  | .ok _, .error _ => isFalse (by intro hc; cases hc)
  | .ok a, .ok b =>
      if h : a = b then isTrue (by rw [h])
      else isFalse (by intro hc; cases hc; exact h rfl)

/-- Line 154: `quantity = parsed_result.get("quantity", 1.0)`. -/
def extractedQty (p : ParsedExtraction) : ℚ := p.quantity.getD 1

/-- Line 155: `unit = parsed_result.get("unit", "unit").lower()`. -/
def extractedUnit (p : ParsedExtraction) : String := pyLower (p.unit.getD "unit")

/-- Line 156: `item_name_raw = parsed_result.get("item_name", "").lower()`. -/
def extractedName (p : ParsedExtraction) : String := pyLower (p.item_name.getD "")

/-- Line 169:
`db.query(FoodItem).filter(FoodItem.user_id == uid, FoodItem.name == nm).first()`. -/
def lookupItem (items : List FoodItemRow) (uid : Nat) (nm : String) :
    Option FoodItemRow :=
  items.find? (fun it => it.user_id == uid && it.name == nm)

/-- Lines 187–196: the `FoodItem` constructed from the nutrition reply.
Every field defaults as `nutrition_data.get(key, default)` does; the name
defaults to `item_name_raw`, and the id is the next primary key. -/
def mkNewItem (db : DB) (u : UserRow) (p : ParsedExtraction)
    (nd : ParsedNutrition) : FoodItemRow :=
  { id := db.next_item_id,
    name := nd.name.getD (extractedName p),
    calories := nd.calories.getD 0,
    protein := nd.protein.getD 0,
    carbs := nd.carbs.getD 0,
    fat := nd.fat.getD 0,
    fiber := nd.fiber.getD 0,
    serving_size_unit := (normalizeUnit (extractedQty p) (extractedUnit p)).2,
    user_id := u.id }

/-- `db.add(new_item); db.commit()`: append the row, bump the key counter. -/
def pushItem (db : DB) (it : FoodItemRow) : DB :=
  { db with food_items := db.food_items ++ [it], next_item_id := db.next_item_id + 1 }

/-- The JSON body `{"item": …, "quantity": …, "new": …}`. -/
structure AnalyzeResult where
  item : FoodItemRow
  quantity : ℚ
  new : Bool
deriving DecidableEq

/-- `POST /api/analyze-and-find-food` (`def analyze_and_find_food`):
resolve the user, run the extraction oracle, normalize quantity and unit,
look the item up by exact lower-cased name, and either return the existing
item (`new: False`) or run the nutrition oracle and create the item
(`new: True`). -/
def analyze_and_find_food (db : DB) (username : String)
    (ext : Except String ParsedExtraction)
    (nut : Except String ParsedNutrition) :
    Except Err AnalyzeResult × DB :=
  match findUser db username with
  | none => (Except.error (Err.notFound "User not found"), db)
  | some user =>
    match ext with
    | Except.error e =>
        (Except.error (Err.internal ("AI parsing failed: " ++ e)), db)
    | Except.ok p =>
      let nq := (normalizeUnit (extractedQty p) (extractedUnit p)).1
      match lookupItem db.food_items user.id (extractedName p) with
      | some existing_item => (Except.ok ⟨existing_item, nq, false⟩, db)
      | none =>
        match nut with
        | Except.error e =>
            (Except.error (Err.internal ("AI nutrition fetch failed: " ++ e)), db)
        | Except.ok nd =>
            (Except.ok ⟨mkNewItem db user p nd, nq, true⟩,
             pushItem db (mkNewItem db user p nd))

/-! ### The CRUD endpoints -/

/-- The name order used by `.order_by(FoodItem.name)`. -/
def nameLE (a b : FoodItemRow) : Prop := a.name ≤ b.name

instance : DecidableRel nameLE := fun a b =>
  inferInstanceAs (Decidable (a.name ≤ b.name))

instance : IsTotal FoodItemRow nameLE := ⟨fun a b => le_total a.name b.name⟩

instance : IsTrans FoodItemRow nameLE := ⟨fun _ _ _ h h' => le_trans h h'⟩

/-- `GET /api/food-items/{username}` (`def get_user_food_items`): the
user's food items ordered by name ascending. -/
def get_user_food_items (db : DB) (username : String) :
    Except Err (List FoodItemRow) × DB :=
  match findUser db username with
  | none => (Except.error (Err.notFound "User not found"), db)
  | some u =>
      (Except.ok
        (List.insertionSort nameLE (db.food_items.filter (fun it => it.user_id == u.id))),
       db)

/-- The request body of `POST /api/log/{username}` (`class FoodLogCreate`). -/
structure FoodLogCreate where
  date : DateT
  meal_type : String
  quantity : ℚ
  food_item_id : Nat
deriving DecidableEq

/-- Line 217: the `FoodLog` row built from the payload; the id is the next
primary key and `user_id` the resolved user's id.  The payload's
`food_item_id` is stored as given — the handler never checks it. -/
def mkLogRow (db : DB) (u : UserRow) (log : FoodLogCreate) : FoodLogRow :=
  { id := db.next_log_id,
    date := log.date,
    meal_type := log.meal_type,
    quantity := log.quantity,
    user_id := u.id,
    food_item_id := log.food_item_id }

/-- `db.add(db_log); db.commit()`: append the row, bump the key counter. -/
def pushLog (db : DB) (row : FoodLogRow) : DB :=
  { db with food_logs := db.food_logs ++ [row], next_log_id := db.next_log_id + 1 }

/-- `POST /api/log/{username}` (`def create_food_log`): resolve the user,
persist the log row, and return it together with the food item the
response model embeds through the `food_item` relationship (the join on
`food_items.id`; `none` when the stored identifier is dangling). -/
def create_food_log (db : DB) (username : String) (log : FoodLogCreate) :
    Except Err (FoodLogRow × Option FoodItemRow) × DB :=
  match findUser db username with
  | none => (Except.error (Err.notFound "User not found"), db)
  | some u =>
      (Except.ok (mkLogRow db u log,
        db.food_items.find? (fun it => it.id == log.food_item_id)),
       pushLog db (mkLogRow db u log))

/-- `GET /api/log/{username}/{log_date}` (`def get_logs_for_date`). -/
def get_logs_for_date (db : DB) (username : String) (log_date : DateT) :
    Except Err (List FoodLogRow) × DB :=
  match findUser db username with
  | none => (Except.error (Err.notFound "User not found"), db)
  | some u =>
      (Except.ok (db.food_logs.filter (fun l => l.user_id == u.id && l.date == log_date)),
       db)

/-- `DELETE /api/log/{log_id}` (`def delete_log`): find the first row with
the given primary key — no ownership filter — and delete it. -/
def delete_log (db : DB) (log_id : Nat) : Except Err String × DB :=
  match db.food_logs.find? (fun l => l.id == log_id) with
  | none => (Except.error (Err.notFound "Log not found"), db)
  | some _ =>
      (Except.ok "Log deleted",
       { db with food_logs := db.food_logs.eraseP (fun l => l.id == log_id) })

/-! ### `GET /api/stats/{username}/calendar-data` -/

/-- The joined rows of
`FoodLog JOIN FoodItem ON FoodLog.food_item_id == FoodItem.id`
restricted to `FoodLog.user_id == uid`, each carrying the date and
`FoodLog.quantity * FoodItem.calories`.  An inner join: a log whose
`food_item_id` matches no item produces no row. -/
def joinRows (db : DB) (uid : Nat) : List (DateT × ℚ) :=
  (db.food_logs.filter (fun l => l.user_id == uid)).flatMap (fun l =>
    (db.food_items.filter (fun it => it.id == l.food_item_id)).map
      (fun it => (l.date, l.quantity * it.calories)))

/-- `func.sum(FoodLog.quantity * FoodItem.calories)` over the rows of one
date's group. -/
def sumDay (rows : List (DateT × ℚ)) (d : DateT) : ℚ :=
  ((rows.filter (fun r => r.1 == d)).map Prod.snd).sum

/-- `GROUP BY FoodLog.date` with the sum aggregate: one entry per distinct
date of the joined rows.  (SQL `SUM` over a group of non-null floats is
never `NULL`, so the handler's `if total_calories is not None` filter
drops nothing and is not modelled.) -/
def calendarAgg (rows : List (DateT × ℚ)) : List (DateT × ℚ) :=
  ((rows.map Prod.fst).dedup).map (fun d => (d, sumDay rows d))

/-- `GET /api/stats/{username}/calendar-data` (`def get_calendar_data`):
the per-day calorie totals of the user's logs, an inner join with the
item table, grouped by date. -/
def get_calendar_data (db : DB) (username : String) :
    Except Err (List (DateT × ℚ)) × DB :=
  match findUser db username with
  | none => (Except.error (Err.notFound "User not found"), db)
  | some u => (Except.ok (calendarAgg (joinRows db u.id)), db)

/-! ### Spec-side descriptions used by the calendar claims -/

/-- The user's logs on day `d`. -/
def userLogsOn (db : DB) (uid : Nat) (d : DateT) : List FoodLogRow :=
  db.food_logs.filter (fun l => l.user_id == uid && l.date == d)

/-- The calories of the food item a log references (0 if dangling; the
claims that use this hypothesise the reference resolves). -/
def calOfLog (db : DB) (l : FoodLogRow) : ℚ :=
  match db.food_items.find? (fun it => it.id == l.food_item_id) with
  | some it => it.calories
  | none => 0

/-- The spec's day total: the sum over the user's logs of that day of
(log quantity × referenced item's calories). -/
def specDayTotal (db : DB) (uid : Nat) (d : DateT) : ℚ :=
  ((userLogsOn db uid d).map (fun l => l.quantity * calOfLog db l)).sum

/-! ## Helper lemmas -/

/-- `find?` returning `some a` splits the list around its first match,
and `eraseP` removes exactly that occurrence. -/
theorem find?_eraseP_decomp {α} (p : α → Bool) :
    ∀ (l : List α) (a : α), l.find? p = some a →
      ∃ pre post, l = pre ++ a :: post ∧ (∀ x ∈ pre, p x = false) ∧
        l.eraseP p = pre ++ post := by
  intro l
  induction l with
  | nil => intro a h; simp at h
  | cons b t ih =>
    intro a h
    cases hp : p b with
    | true =>
      rw [List.find?_cons_of_pos _ hp] at h
      cases h
      exact ⟨[], t, rfl, by simp, List.eraseP_cons_of_pos hp⟩
    | false =>
      rw [List.find?_cons_of_neg _ (by simp [hp])] at h
      obtain ⟨pre, post, h1, h2, h3⟩ := ih a h
      refine ⟨b :: pre, post, by simp [h1], ?_, ?_⟩
      · intro x hx
        rcases List.mem_cons.mp hx with hx | hx
        · exact hx ▸ hp
        · exact h2 x hx
      · rw [List.eraseP_cons_of_neg (by simp [hp]), h3, List.cons_append]

/-- A `flatMap` whose function yields singletons is a `map`. -/
theorem flatMap_eq_map_of_singleton {α β} (l : List α) (f : α → List β)
    (g : α → β) (h : ∀ a ∈ l, f a = [g a]) : l.flatMap f = l.map g := by
  induction l with
  | nil => rfl
  | cons b t ih =>
    rw [List.flatMap_cons, List.map_cons, h b (List.mem_cons_self b t),
      ih (fun a ha => h a (List.mem_cons_of_mem b ha)), List.singleton_append]

/-- Over a list whose `id` projections are distinct (the primary-key
invariant), filtering by an id equals the singleton of the `find?`
result. -/
theorem filter_eq_singleton_of_find? (items : List FoodItemRow) (k : Nat)
    (hnd : (items.map (fun it => it.id)).Nodup) (it : FoodItemRow)
    (hfind : items.find? (fun x => x.id == k) = some it) :
    items.filter (fun x => x.id == k) = [it] := by
  induction items with
  | nil => simp at hfind
  | cons b t ih =>
    simp only [List.map_cons, List.nodup_cons] at hnd
    cases hb : (b.id == k) with
    | true =>
      rw [List.find?_cons_of_pos (p := fun x : FoodItemRow => x.id == k) _ hb] at hfind
      cases hfind
      rw [List.filter_cons_of_pos (p := fun x : FoodItemRow => x.id == k) hb]
      have ht : t.filter (fun x => x.id == k) = [] := by
        rw [List.filter_eq_nil_iff]
        intro x hx hpx
        have hxk : x.id = k := by simpa using hpx
        have hbk : it.id = k := by simpa using hb
        exact hnd.1 (List.mem_map.mpr ⟨x, hx, by rw [hxk, hbk]⟩)
      rw [ht]
    | false =>
      rw [List.find?_cons_of_neg (p := fun x : FoodItemRow => x.id == k) _ (by simp [hb])] at hfind
      rw [List.filter_cons_of_neg (p := fun x : FoodItemRow => x.id == k) (by simp [hb])]
      exact ih hnd.2 hfind

/-- Looking a key up in an association list built by pairing each key
with `f` of itself. -/
theorem lookup_map_key (f : DateT → ℚ) :
    ∀ (m : List DateT) (d : DateT),
      (m.map (fun x => (x, f x))).lookup d =
        if d ∈ m then some (f d) else none := by
  intro m
  induction m with
  | nil => intro d; simp [List.lookup]
  | cons a t ih =>
    intro d
    simp only [List.map_cons, List.lookup]
    cases hda : (d == a) with
    | true =>
      have hd : d = a := by simpa using hda
      subst hd
      simp
    | false =>
      have hne : d ≠ a := by simpa using hda
      simp [hne, ih d]

/-- The calendar dictionary maps a date to the group sum when the joined
rows mention it, and is undefined on it otherwise. -/
theorem calendarAgg_lookup (rows : List (DateT × ℚ)) (d : DateT) :
    (calendarAgg rows).lookup d =
      if d ∈ rows.map Prod.fst then some (sumDay rows d) else none := by
  unfold calendarAgg
  rw [lookup_map_key]
  by_cases hd : d ∈ rows.map Prod.fst
  · rw [if_pos (List.mem_dedup.mpr hd), if_pos hd]
  · rw [if_neg (fun hc => hd (List.mem_dedup.mp hc)), if_neg hd]

/-- Elements dropped by a filter contribute nothing to a `flatMap` whose
function is empty on them. -/
theorem flatMap_filter_of_nil {α β} (q : α → Bool) (f : α → List β) :
    ∀ (l : List α), (∀ a ∈ l, q a = false → f a = []) →
      (l.filter q).flatMap f = l.flatMap f := by
  intro l
  induction l with
  | nil => intro _; rfl
  | cons b t ih =>
    intro h
    cases hb : q b with
    | true =>
      rw [List.filter_cons_of_pos (p := q) hb, List.flatMap_cons, List.flatMap_cons,
        ih (fun a ha hqa => h a (List.mem_cons_of_mem b ha) hqa)]
    | false =>
      rw [List.filter_cons_of_neg (p := q) (by simp [hb]), List.flatMap_cons,
        h b (List.mem_cons_self b t) hb, List.nil_append,
        ih (fun a ha hqa => h a (List.mem_cons_of_mem b ha) hqa)]

/-- Under the primary-key invariant on food items and when every log of
the user references an existing item, the inner join degenerates to a map
over the user's logs. -/
theorem joinRows_collapse (db : DB) (uid : Nat)
    (hnd : (db.food_items.map (fun it => it.id)).Nodup)
    (href : ∀ l ∈ db.food_logs, l.user_id = uid →
      ∃ it ∈ db.food_items, it.id = l.food_item_id) :
    joinRows db uid = (db.food_logs.filter (fun l => l.user_id == uid)).map
      (fun l => (l.date, l.quantity * calOfLog db l)) := by
  unfold joinRows
  apply flatMap_eq_map_of_singleton
  intro l hl
  have hl' := List.mem_filter.mp hl
  have hluid : l.user_id = uid := by simpa using hl'.2
  obtain ⟨it, hmem, hid⟩ := href l hl'.1 hluid
  have hsome : (db.food_items.find? (fun x => x.id == l.food_item_id)).isSome := by
    rw [List.find?_isSome]
    exact ⟨it, hmem, by simpa using hid⟩
  obtain ⟨it0, hit0⟩ := Option.isSome_iff_exists.mp hsome
  rw [filter_eq_singleton_of_find? db.food_items l.food_item_id hnd it0 hit0]
  simp [calOfLog, hit0]

/-! ## Claim theorems -/

/-- **C1.** In `analyze_and_find_food`, for every extracted
(quantity, unit) pair: if the lower-cased unit is one of `ml`, `g`,
`gram`, `grams`, the normalized quantity equals the extracted quantity
divided by 100 and the serving label is `"100ml"` or `"100g"`
(pluralization and the word `gram` collapsed to `g`); for every other
unit the quantity and serving label pass through unchanged.  In
particular, unit `"ml"` with quantity 500 yields 5.0 and `"100ml"`, and
unit `"unit"` with quantity 1 yields 1.0 and `"unit"`. -/
theorem C1_unit_normalization (q : ℚ) (unit : String) :
    (unit ∈ ["ml", "g", "gram", "grams"] →
      (normalizeUnit q unit).1 = q / 100 ∧
        ((normalizeUnit q unit).2 = "100ml" ∨ (normalizeUnit q unit).2 = "100g")) ∧
    (unit ∉ ["ml", "g", "gram", "grams"] → normalizeUnit q unit = (q, unit)) ∧
    normalizeUnit 500 "ml" = (5, "100ml") ∧ normalizeUnit 1 "unit" = (1, "unit") := by
  refine ⟨?_, ?_, ?_, ?_⟩
  · intro h
    simp only [List.mem_cons, List.not_mem_nil, or_false] at h
    rcases h with h | h | h | h <;> subst h
    · exact ⟨rfl, Or.inl rfl⟩
    · exact ⟨rfl, Or.inr rfl⟩
    · exact ⟨rfl, Or.inr rfl⟩
    · exact ⟨rfl, Or.inr rfl⟩
  · intro h
    simp only [normalizeUnit, if_neg h]
  · have h1 : (normalizeUnit 500 "ml").1 = 500 / 100 := rfl
    have h2 : (normalizeUnit 500 "ml").2 = "100ml" := rfl
    have : (500 : ℚ) / 100 = 5 := by norm_num
    rw [Prod.ext_iff, h1, h2, this]
    exact ⟨rfl, rfl⟩
  · rfl

/-- Witness for C1: instantiates both branches at the spec's examples. -/
theorem C1_unit_normalization_witness :
    ((normalizeUnit 500 "ml").1 = 500 / 100 ∧
      ((normalizeUnit 500 "ml").2 = "100ml" ∨ (normalizeUnit 500 "ml").2 = "100g")) ∧
    normalizeUnit 1 "unit" = (1, "unit") :=
  ⟨(C1_unit_normalization 500 "ml").1 (by decide),
   (C1_unit_normalization 1 "unit").2.1 (by decide)⟩

/-- **C3.** For every login request whose username matches no existing
user, the login operation inserts exactly one new user row storing that
username and password and reports creation; it never reports an
authorization failure on a first-seen username. -/
theorem C3_login_creates_user (db : DB) (username password : String)
    (h : findUser db username = none) :
    (login db username password).1 = Except.ok "User created." ∧
    (login db username password).2.users =
      db.users ++ [⟨db.next_user_id, username, password⟩] ∧
    (login db username password).2.food_items = db.food_items ∧
    (login db username password).2.food_logs = db.food_logs ∧
    ∀ msg, (login db username password).1 ≠ Except.error (Err.unauthorized msg) := by
  simp [login, h]

/-- Witness for C3: a first login on an empty database. -/
theorem C3_login_creates_user_witness :
    (login ⟨[], [], [], 1, 1, 1⟩ "alice" "pw").1 = Except.ok "User created." ∧
    (login ⟨[], [], [], 1, 1, 1⟩ "alice" "pw").2.users = [] ++ [⟨1, "alice", "pw"⟩] ∧
    (login ⟨[], [], [], 1, 1, 1⟩ "alice" "pw").2.food_items = [] ∧
    (login ⟨[], [], [], 1, 1, 1⟩ "alice" "pw").2.food_logs = [] ∧
    ∀ msg, (login ⟨[], [], [], 1, 1, 1⟩ "alice" "pw").1 ≠
      Except.error (Err.unauthorized msg) :=
  C3_login_creates_user ⟨[], [], [], 1, 1, 1⟩ "alice" "pw" rfl

/-- **C4.** For every login request whose username matches an existing
user and whose supplied password differs (exact string comparison) from
the stored password, the login operation fails with a 401 authorization
error and leaves all stored data (users, food items, food logs)
unchanged. -/
theorem C4_login_wrong_password (db : DB) (username password : String)
    (u : UserRow) (hu : findUser db username = some u)
    (hpw : u.password ≠ password) :
    login db username password =
      (Except.error (Err.unauthorized "Incorrect password"), db) := by
  simp only [login, hu, if_neg hpw]

/-- Witness for C4: a stored user with a different password. -/
theorem C4_login_wrong_password_witness :
    login ⟨[⟨1, "alice", "pw"⟩], [], [], 2, 1, 1⟩ "alice" "wrong" =
      (Except.error (Err.unauthorized "Incorrect password"),
       ⟨[⟨1, "alice", "pw"⟩], [], [], 2, 1, 1⟩) :=
  C4_login_wrong_password ⟨[⟨1, "alice", "pw"⟩], [], [], 2, 1, 1⟩ "alice" "wrong"
    ⟨1, "alice", "pw"⟩ rfl (by decide)

/-- **C9.** The three read endpoints — food-item listing, log retrieval
by date, and the calendar aggregate — never modify any of the three
tables (users, food items, food logs), for every input, including the
not-found and internal-error outcomes. -/
theorem C9_read_endpoints_pure (db : DB) (username : String) (d : DateT) :
    (get_user_food_items db username).2 = db ∧
    (get_logs_for_date db username d).2 = db ∧
    (get_calendar_data db username).2 = db := by
  refine ⟨?_, ?_, ?_⟩ <;>
    simp only [get_user_food_items, get_logs_for_date, get_calendar_data] <;>
    cases findUser db username <;> rfl

/-- **C6.** For every known username, the food-item listing returns
exactly the food items owned by that user, sorted lexicographically
ascending by name; for every unknown username it fails with a not-found
(404) error. -/
theorem C6_food_item_listing (db : DB) (username : String) :
    (∀ u, findUser db username = some u →
      (get_user_food_items db username).1 =
        Except.ok (List.insertionSort nameLE
          (db.food_items.filter (fun it => it.user_id == u.id))) ∧
      (List.insertionSort nameLE
          (db.food_items.filter (fun it => it.user_id == u.id))).Perm
        (db.food_items.filter (fun it => it.user_id == u.id)) ∧
      List.Sorted nameLE (List.insertionSort nameLE
        (db.food_items.filter (fun it => it.user_id == u.id)))) ∧
    (findUser db username = none →
      (get_user_food_items db username).1 =
        Except.error (Err.notFound "User not found")) := by
  constructor
  · intro u hu
    refine ⟨by simp only [get_user_food_items, hu],
      List.perm_insertionSort _ _, List.sorted_insertionSort _ _⟩
  · intro h
    simp only [get_user_food_items, h]

/-- Witness for C6: a user owning two items listed in name order, and an
unknown username rejected. -/
theorem C6_food_item_listing_witness :
    ((get_user_food_items
        ⟨[⟨1, "alice", "pw"⟩],
         [⟨1, "banana", 89, 1, 23, 0, 3, "unit", 1⟩, ⟨2, "apple", 52, 0, 14, 0, 2, "unit", 1⟩],
         [], 2, 3, 1⟩ "alice").1 =
      Except.ok (List.insertionSort nameLE
        ([⟨1, "banana", 89, 1, 23, 0, 3, "unit", 1⟩,
          ⟨2, "apple", 52, 0, 14, 0, 2, "unit", 1⟩].filter
            (fun it => it.user_id == 1))) ∧
     (List.insertionSort nameLE
        ([⟨1, "banana", 89, 1, 23, 0, 3, "unit", 1⟩,
          ⟨2, "apple", 52, 0, 14, 0, 2, "unit", 1⟩].filter
            (fun it => it.user_id == 1))).Perm
       ([⟨1, "banana", 89, 1, 23, 0, 3, "unit", 1⟩,
         ⟨2, "apple", 52, 0, 14, 0, 2, "unit", 1⟩].filter
           (fun it => it.user_id == 1)) ∧
     List.Sorted nameLE (List.insertionSort nameLE
       ([⟨1, "banana", 89, 1, 23, 0, 3, "unit", 1⟩,
         ⟨2, "apple", 52, 0, 14, 0, 2, "unit", 1⟩].filter
           (fun it => it.user_id == 1)))) ∧
    (get_user_food_items ⟨[⟨1, "alice", "pw"⟩], [], [], 2, 1, 1⟩ "bob").1 =
      Except.error (Err.notFound "User not found") :=
  ⟨(C6_food_item_listing
      ⟨[⟨1, "alice", "pw"⟩],
       [⟨1, "banana", 89, 1, 23, 0, 3, "unit", 1⟩, ⟨2, "apple", 52, 0, 14, 0, 2, "unit", 1⟩],
       [], 2, 3, 1⟩ "alice").1 ⟨1, "alice", "pw"⟩ rfl,
   (C6_food_item_listing ⟨[⟨1, "alice", "pw"⟩], [], [], 2, 1, 1⟩ "bob").2 rfl⟩

/-- **C7.** For every log identifier: if no log with that identifier
exists, log deletion returns a not-found error and the log table is
unchanged in size; if such a log exists, it is deleted regardless of
which user owns it (no ownership check), and exactly that one row is
removed. -/
theorem C7_delete_log (db : DB) (log_id : Nat) :
    (db.food_logs.find? (fun l => l.id == log_id) = none →
      delete_log db log_id = (Except.error (Err.notFound "Log not found"), db)) ∧
    (∀ l0, db.food_logs.find? (fun l => l.id == log_id) = some l0 →
      (delete_log db log_id).1 = Except.ok "Log deleted" ∧
      (delete_log db log_id).2.users = db.users ∧
      (delete_log db log_id).2.food_items = db.food_items ∧
      (delete_log db log_id).2.food_logs.length + 1 = db.food_logs.length ∧
      ∃ pre post, db.food_logs = pre ++ l0 :: post ∧
        (∀ x ∈ pre, (x.id == log_id) = false) ∧
        (delete_log db log_id).2.food_logs = pre ++ post) := by
  constructor
  · intro h
    simp only [delete_log, h]
  · intro l0 h
    obtain ⟨pre, post, h1, h2, h3⟩ :=
      find?_eraseP_decomp (fun l => l.id == log_id) db.food_logs l0 h
    have hlogs : (delete_log db log_id).2.food_logs =
        List.eraseP (fun l => l.id == log_id) db.food_logs := by
      simp only [delete_log, h]
    refine ⟨by simp only [delete_log, h], by simp only [delete_log, h],
      by simp only [delete_log, h], ?_, pre, post, h1, h2, by rw [hlogs, h3]⟩
    rw [hlogs, h3, h1]
    simp [List.length_append]
    omega

/-- Witness for C7: deleting an existing log (owned by a user other than
the caller — no ownership check exists) and a missing one. -/
theorem C7_delete_log_witness :
    (delete_log
        ⟨[⟨1, "alice", "pw"⟩], [], [⟨1, 10, "lunch", 1, 1, 1⟩, ⟨2, 11, "dinner", 2, 1, 1⟩],
         2, 1, 3⟩ 2).1 = Except.ok "Log deleted" ∧
    (delete_log
        ⟨[⟨1, "alice", "pw"⟩], [], [⟨1, 10, "lunch", 1, 1, 1⟩, ⟨2, 11, "dinner", 2, 1, 1⟩],
         2, 1, 3⟩ 2).2.food_logs.length + 1 =
      [⟨1, 10, "lunch", 1, 1, 1⟩, (⟨2, 11, "dinner", 2, 1, 1⟩ : FoodLogRow)].length ∧
    delete_log
        ⟨[⟨1, "alice", "pw"⟩], [], [⟨1, 10, "lunch", 1, 1, 1⟩, ⟨2, 11, "dinner", 2, 1, 1⟩],
         2, 1, 3⟩ 5 =
      (Except.error (Err.notFound "Log not found"),
       ⟨[⟨1, "alice", "pw"⟩], [], [⟨1, 10, "lunch", 1, 1, 1⟩, ⟨2, 11, "dinner", 2, 1, 1⟩],
        2, 1, 3⟩) := by
  refine ⟨?_, ?_, ?_⟩
  · exact ((C7_delete_log
        ⟨[⟨1, "alice", "pw"⟩], [], [⟨1, 10, "lunch", 1, 1, 1⟩, ⟨2, 11, "dinner", 2, 1, 1⟩],
         2, 1, 3⟩ 2).2 ⟨2, 11, "dinner", 2, 1, 1⟩ rfl).1
  · exact ((C7_delete_log
        ⟨[⟨1, "alice", "pw"⟩], [], [⟨1, 10, "lunch", 1, 1, 1⟩, ⟨2, 11, "dinner", 2, 1, 1⟩],
         2, 1, 3⟩ 2).2 ⟨2, 11, "dinner", 2, 1, 1⟩ rfl).2.2.2.1
  · exact (C7_delete_log
        ⟨[⟨1, "alice", "pw"⟩], [], [⟨1, 10, "lunch", 1, 1, 1⟩, ⟨2, 11, "dinner", 2, 1, 1⟩],
         2, 1, 3⟩ 5).1 rfl

/-- **C8.** For every known username and every log payload (date, meal
type, quantity, food item identifier), log creation persists a new log
row linking that user to the given food item identifier and returns the
created record including the embedded food item, performing no
validation that the referenced food item identifier exists or belongs to
the same user — an invalid or cross-user identifier is accepted; for
every unknown username it fails with not-found. -/
theorem C8_create_food_log (db : DB) (username : String) (log : FoodLogCreate) :
    (∀ u, findUser db username = some u →
      create_food_log db username log =
        (Except.ok (mkLogRow db u log,
           db.food_items.find? (fun it => it.id == log.food_item_id)),
         pushLog db (mkLogRow db u log)) ∧
      (pushLog db (mkLogRow db u log)).food_logs =
        db.food_logs ++ [mkLogRow db u log] ∧
      (mkLogRow db u log).user_id = u.id ∧
      (mkLogRow db u log).food_item_id = log.food_item_id ∧
      (mkLogRow db u log).date = log.date ∧
      (mkLogRow db u log).meal_type = log.meal_type ∧
      (mkLogRow db u log).quantity = log.quantity ∧
      (pushLog db (mkLogRow db u log)).users = db.users ∧
      (pushLog db (mkLogRow db u log)).food_items = db.food_items) ∧
    (findUser db username = none →
      create_food_log db username log =
        (Except.error (Err.notFound "User not found"), db)) := by
  constructor
  · intro u hu
    simp [create_food_log, hu, mkLogRow, pushLog]
  · intro h
    simp only [create_food_log, h]

/-- Witness for C8: a log accepted although its `food_item_id` (99)
matches no food item, and the unknown-user rejection. -/
theorem C8_create_food_log_witness :
    create_food_log ⟨[⟨1, "alice", "pw"⟩], [], [], 2, 1, 1⟩ "alice"
        ⟨10, "lunch", 2, 99⟩ =
      (Except.ok (mkLogRow ⟨[⟨1, "alice", "pw"⟩], [], [], 2, 1, 1⟩
           ⟨1, "alice", "pw"⟩ ⟨10, "lunch", 2, 99⟩,
         List.find? (fun it => it.id == 99) []),
       pushLog ⟨[⟨1, "alice", "pw"⟩], [], [], 2, 1, 1⟩
         (mkLogRow ⟨[⟨1, "alice", "pw"⟩], [], [], 2, 1, 1⟩
           ⟨1, "alice", "pw"⟩ ⟨10, "lunch", 2, 99⟩)) ∧
    create_food_log ⟨[⟨1, "alice", "pw"⟩], [], [], 2, 1, 1⟩ "bob"
        ⟨10, "lunch", 2, 99⟩ =
      (Except.error (Err.notFound "User not found"),
       ⟨[⟨1, "alice", "pw"⟩], [], [], 2, 1, 1⟩) :=
  ⟨((C8_create_food_log ⟨[⟨1, "alice", "pw"⟩], [], [], 2, 1, 1⟩ "alice"
      ⟨10, "lunch", 2, 99⟩).1 ⟨1, "alice", "pw"⟩ rfl).1,
   (C8_create_food_log ⟨[⟨1, "alice", "pw"⟩], [], [], 2, 1, 1⟩ "bob"
      ⟨10, "lunch", 2, 99⟩).2 rfl⟩

/-- **C2, counterexample.**  The claim — a second `analyze_and_find_food`
call extracting the same lower-cased item name always resolves to the item
the first call created, with `new = false` — is false: the created item is
stored under `nutrition_data.get("name", item_name_raw)`, the nutrition
reply's name, which need not equal the lower-cased extracted name.  Here
the extraction yields `"milk"` but the nutrition reply names the item
`"Milk"`, so the second call's exact-name lookup misses and creates a
second item (id 2, `new = true`, table grown by one row). -/
theorem C2_counterexample :
    (analyze_and_find_food ⟨[⟨1, "alice", "pw"⟩], [], [], 2, 1, 1⟩ "alice"
        (Except.ok ⟨some 1, some "unit", some "milk"⟩)
        (Except.ok ⟨some "Milk", some 10, some 1, some 2, some 3, some 4⟩)).1 =
      Except.ok ⟨⟨1, "Milk", 10, 1, 2, 3, 4, "unit", 1⟩, 1, true⟩ ∧
    (analyze_and_find_food
        ((analyze_and_find_food ⟨[⟨1, "alice", "pw"⟩], [], [], 2, 1, 1⟩ "alice"
          (Except.ok ⟨some 1, some "unit", some "milk"⟩)
          (Except.ok ⟨some "Milk", some 10, some 1, some 2, some 3, some 4⟩)).2) "alice"
        (Except.ok ⟨some 1, some "unit", some "milk"⟩)
        (Except.ok ⟨some "Milk", some 10, some 1, some 2, some 3, some 4⟩)).1 =
      Except.ok ⟨⟨2, "Milk", 10, 1, 2, 3, 4, "unit", 1⟩, 1, true⟩ ∧
    (analyze_and_find_food
        ((analyze_and_find_food ⟨[⟨1, "alice", "pw"⟩], [], [], 2, 1, 1⟩ "alice"
          (Except.ok ⟨some 1, some "unit", some "milk"⟩)
          (Except.ok ⟨some "Milk", some 10, some 1, some 2, some 3, some 4⟩)).2) "alice"
        (Except.ok ⟨some 1, some "unit", some "milk"⟩)
        (Except.ok ⟨some "Milk", some 10, some 1, some 2, some 3, some 4⟩)).2.food_items.length =
      ((analyze_and_find_food ⟨[⟨1, "alice", "pw"⟩], [], [], 2, 1, 1⟩ "alice"
          (Except.ok ⟨some 1, some "unit", some "milk"⟩)
          (Except.ok ⟨some "Milk", some 10, some 1, some 2, some 3, some 4⟩)).2.food_items.length) + 1 := by
  refine ⟨by decide, by decide, by decide⟩

/-- **C2, amended.**  For a fixed user, if a first `analyze_and_find_food`
call finds no existing item for its lower-cased extracted item name and
creates one whose *stored* name equals that lower-cased name (as happens
whenever the nutrition reply's `name` field is absent or equal to it),
then a second call whose extraction yields the same lower-cased item name
resolves to the same food item identifier, returns `new = false`, and
creates no new item (the database is returned unchanged). -/
theorem C2_amended (db : DB) (username : String) (u : UserRow)
    (p1 p2 : ParsedExtraction) (n1 : ParsedNutrition)
    (n2 : Except String ParsedNutrition)
    (hu : findUser db username = some u)
    (hnone : lookupItem db.food_items u.id (extractedName p1) = none)
    (hname : n1.name.getD (extractedName p1) = extractedName p1)
    (hsame : extractedName p2 = extractedName p1) :
    analyze_and_find_food db username (Except.ok p1) (Except.ok n1) =
      (Except.ok ⟨mkNewItem db u p1 n1,
        (normalizeUnit (extractedQty p1) (extractedUnit p1)).1, true⟩,
       pushItem db (mkNewItem db u p1 n1)) ∧
    analyze_and_find_food (pushItem db (mkNewItem db u p1 n1)) username
        (Except.ok p2) n2 =
      (Except.ok ⟨mkNewItem db u p1 n1,
        (normalizeUnit (extractedQty p2) (extractedUnit p2)).1, false⟩,
       pushItem db (mkNewItem db u p1 n1)) := by
  constructor
  · simp only [analyze_and_find_food, hu, hnone]
  · have husers : findUser (pushItem db (mkNewItem db u p1 n1)) username = some u := hu
    have hlook : lookupItem (pushItem db (mkNewItem db u p1 n1)).food_items u.id
        (extractedName p2) = some (mkNewItem db u p1 n1) := by
      simp only [pushItem, lookupItem, List.find?_append]
      rw [hsame]
      have h1 : List.find?
          (fun it => it.user_id == u.id && it.name == extractedName p1)
          db.food_items = none := hnone
      rw [h1]
      simp [List.find?, mkNewItem, hname]
    simp only [analyze_and_find_food, husers, hlook]

/-- Witness for C2 (amended): the nutrition reply's `name` field is
absent, so the stored name is the extracted `"milk"` and the second call
resolves to the created item with `new = false`. -/
theorem C2_amended_witness :
    analyze_and_find_food ⟨[⟨1, "alice", "pw"⟩], [], [], 2, 1, 1⟩ "alice"
        (Except.ok ⟨some 1, some "unit", some "milk"⟩)
        (Except.ok ⟨none, some 10, some 1, some 2, some 3, some 4⟩) =
      (Except.ok ⟨mkNewItem ⟨[⟨1, "alice", "pw"⟩], [], [], 2, 1, 1⟩
          ⟨1, "alice", "pw"⟩ ⟨some 1, some "unit", some "milk"⟩
          ⟨none, some 10, some 1, some 2, some 3, some 4⟩,
        (normalizeUnit (extractedQty ⟨some 1, some "unit", some "milk"⟩)
          (extractedUnit ⟨some 1, some "unit", some "milk"⟩)).1, true⟩,
       pushItem ⟨[⟨1, "alice", "pw"⟩], [], [], 2, 1, 1⟩
         (mkNewItem ⟨[⟨1, "alice", "pw"⟩], [], [], 2, 1, 1⟩
           ⟨1, "alice", "pw"⟩ ⟨some 1, some "unit", some "milk"⟩
           ⟨none, some 10, some 1, some 2, some 3, some 4⟩)) ∧
    analyze_and_find_food
        (pushItem ⟨[⟨1, "alice", "pw"⟩], [], [], 2, 1, 1⟩
          (mkNewItem ⟨[⟨1, "alice", "pw"⟩], [], [], 2, 1, 1⟩
            ⟨1, "alice", "pw"⟩ ⟨some 1, some "unit", some "milk"⟩
            ⟨none, some 10, some 1, some 2, some 3, some 4⟩)) "alice"
        (Except.ok ⟨some 1, some "unit", some "milk"⟩)
        (Except.ok ⟨none, some 10, some 1, some 2, some 3, some 4⟩) =
      (Except.ok ⟨mkNewItem ⟨[⟨1, "alice", "pw"⟩], [], [], 2, 1, 1⟩
          ⟨1, "alice", "pw"⟩ ⟨some 1, some "unit", some "milk"⟩
          ⟨none, some 10, some 1, some 2, some 3, some 4⟩,
        (normalizeUnit (extractedQty ⟨some 1, some "unit", some "milk"⟩)
          (extractedUnit ⟨some 1, some "unit", some "milk"⟩)).1, false⟩,
       pushItem ⟨[⟨1, "alice", "pw"⟩], [], [], 2, 1, 1⟩
         (mkNewItem ⟨[⟨1, "alice", "pw"⟩], [], [], 2, 1, 1⟩
           ⟨1, "alice", "pw"⟩ ⟨some 1, some "unit", some "milk"⟩
           ⟨none, some 10, some 1, some 2, some 3, some 4⟩)) :=
  C2_amended ⟨[⟨1, "alice", "pw"⟩], [], [], 2, 1, 1⟩ "alice" ⟨1, "alice", "pw"⟩
    ⟨some 1, some "unit", some "milk"⟩ ⟨some 1, some "unit", some "milk"⟩
    ⟨none, some 10, some 1, some 2, some 3, some 4⟩
    (Except.ok ⟨none, some 10, some 1, some 2, some 3, some 4⟩)
    rfl rfl rfl rfl

/-- **C5.** For every known user — under the primary-key invariant on
food-item ids and the claim's presupposition that every log of the user
references an existing food item — the calendar aggregate equals the
mapping that sends each date with at least one of that user's logs to the
sum over those logs of (log quantity × referenced item's calories); dates
with no logs are absent from the mapping rather than present with
value 0. -/
theorem C5_calendar_aggregate (db : DB) (username : String) (u : UserRow)
    (hu : findUser db username = some u)
    (hnd : (db.food_items.map (fun it => it.id)).Nodup)
    (href : ∀ l ∈ db.food_logs, l.user_id = u.id →
      ∃ it ∈ db.food_items, it.id = l.food_item_id) :
    (get_calendar_data db username).1 =
      Except.ok (calendarAgg (joinRows db u.id)) ∧
    ∀ d : DateT,
      (calendarAgg (joinRows db u.id)).lookup d =
        if userLogsOn db u.id d = [] then none
        else some (specDayTotal db u.id d) := by
  refine ⟨by simp only [get_calendar_data, hu], ?_⟩
  intro d
  rw [calendarAgg_lookup]
  have hjr := joinRows_collapse db u.id hnd href
  have hfilters : userLogsOn db u.id d =
      (db.food_logs.filter (fun l => l.user_id == u.id)).filter
        (fun l => l.date == d) := by
    unfold userLogsOn
    rw [List.filter_filter]
    exact List.filter_congr (fun a _ => Bool.and_comm _ _)
  have hmem : d ∈ (joinRows db u.id).map Prod.fst ↔ userLogsOn db u.id d ≠ [] := by
    rw [hjr, List.map_map]
    constructor
    · intro hd hnil
      obtain ⟨l, hl, hld⟩ := List.mem_map.mp hd
      have hld' : l.date = d := hld
      have hlmem : l ∈ userLogsOn db u.id d := by
        rw [hfilters]
        exact List.mem_filter.mpr ⟨hl, by simpa using hld'⟩
      rw [hnil] at hlmem
      simp at hlmem
    · intro hne
      obtain ⟨l, hl⟩ := List.exists_mem_of_ne_nil _ hne
      rw [hfilters] at hl
      have hl' := List.mem_filter.mp hl
      exact List.mem_map.mpr ⟨l, hl'.1, by simpa using hl'.2⟩
  have hsum : sumDay (joinRows db u.id) d = specDayTotal db u.id d := by
    rw [hjr]
    unfold sumDay specDayTotal
    rw [List.filter_map, List.map_map, hfilters]
    rfl
  by_cases hcase : userLogsOn db u.id d = []
  · rw [if_pos hcase, if_neg (fun hd => (hmem.mp hd) hcase)]
  · rw [if_neg hcase, if_pos (hmem.mpr hcase), hsum]

/-- Witness for C5: 2 and 3 units of a 5-calorie item on day 7 give
`{7 ↦ 25}`; day 8, with no logs, is absent. -/
theorem C5_calendar_aggregate_witness :
    (get_calendar_data
        ⟨[⟨1, "alice", "pw"⟩], [⟨1, "apple", 5, 0, 0, 0, 0, "unit", 1⟩],
         [⟨1, 7, "lunch", 2, 1, 1⟩, ⟨2, 7, "dinner", 3, 1, 1⟩], 2, 2, 3⟩ "alice").1 =
      Except.ok (calendarAgg (joinRows
        ⟨[⟨1, "alice", "pw"⟩], [⟨1, "apple", 5, 0, 0, 0, 0, "unit", 1⟩],
         [⟨1, 7, "lunch", 2, 1, 1⟩, ⟨2, 7, "dinner", 3, 1, 1⟩], 2, 2, 3⟩ 1)) ∧
    (calendarAgg (joinRows
        ⟨[⟨1, "alice", "pw"⟩], [⟨1, "apple", 5, 0, 0, 0, 0, "unit", 1⟩],
         [⟨1, 7, "lunch", 2, 1, 1⟩, ⟨2, 7, "dinner", 3, 1, 1⟩], 2, 2, 3⟩ 1)).lookup 7 =
      some 25 ∧
    (calendarAgg (joinRows
        ⟨[⟨1, "alice", "pw"⟩], [⟨1, "apple", 5, 0, 0, 0, 0, "unit", 1⟩],
         [⟨1, 7, "lunch", 2, 1, 1⟩, ⟨2, 7, "dinner", 3, 1, 1⟩], 2, 2, 3⟩ 1)).lookup 8 =
      none := by
  have h := C5_calendar_aggregate
    ⟨[⟨1, "alice", "pw"⟩], [⟨1, "apple", 5, 0, 0, 0, 0, "unit", 1⟩],
     [⟨1, 7, "lunch", 2, 1, 1⟩, ⟨2, 7, "dinner", 3, 1, 1⟩], 2, 2, 3⟩ "alice"
    ⟨1, "alice", "pw"⟩ rfl (by decide) (by decide)
  refine ⟨h.1, ?_, ?_⟩
  · have h7 : (calendarAgg (joinRows
        ⟨[⟨1, "alice", "pw"⟩], [⟨1, "apple", 5, 0, 0, 0, 0, "unit", 1⟩],
         [⟨1, 7, "lunch", 2, 1, 1⟩, ⟨2, 7, "dinner", 3, 1, 1⟩], 2, 2, 3⟩ 1)).lookup 7 =
        if userLogsOn
            ⟨[⟨1, "alice", "pw"⟩], [⟨1, "apple", 5, 0, 0, 0, 0, "unit", 1⟩],
             [⟨1, 7, "lunch", 2, 1, 1⟩, ⟨2, 7, "dinner", 3, 1, 1⟩], 2, 2, 3⟩ 1 7 = []
        then none
        else some (specDayTotal
            ⟨[⟨1, "alice", "pw"⟩], [⟨1, "apple", 5, 0, 0, 0, 0, "unit", 1⟩],
             [⟨1, 7, "lunch", 2, 1, 1⟩, ⟨2, 7, "dinner", 3, 1, 1⟩], 2, 2, 3⟩ 1 7) :=
      h.2 7
    rw [if_neg (by decide)] at h7
    rw [h7]
    norm_num [specDayTotal, userLogsOn, calOfLog, List.filter, List.find?]
  · have h8 : (calendarAgg (joinRows
        ⟨[⟨1, "alice", "pw"⟩], [⟨1, "apple", 5, 0, 0, 0, 0, "unit", 1⟩],
         [⟨1, 7, "lunch", 2, 1, 1⟩, ⟨2, 7, "dinner", 3, 1, 1⟩], 2, 2, 3⟩ 1)).lookup 8 =
        if userLogsOn
            ⟨[⟨1, "alice", "pw"⟩], [⟨1, "apple", 5, 0, 0, 0, 0, "unit", 1⟩],
             [⟨1, 7, "lunch", 2, 1, 1⟩, ⟨2, 7, "dinner", 3, 1, 1⟩], 2, 2, 3⟩ 1 8 = []
        then none
        else some (specDayTotal
            ⟨[⟨1, "alice", "pw"⟩], [⟨1, "apple", 5, 0, 0, 0, 0, "unit", 1⟩],
             [⟨1, 7, "lunch", 2, 1, 1⟩, ⟨2, 7, "dinner", 3, 1, 1⟩], 2, 2, 3⟩ 1 8) :=
      h.2 8
    rw [if_pos (by decide)] at h8
    exact h8

/-- **C10.** The calendar aggregate silently excludes every log whose
food item identifier matches no existing food item (inner join): dropping
all such dangling logs leaves the response unchanged, and a day whose
only logs are dangling is absent from the returned mapping rather than
present with value 0. -/
theorem C10_calendar_excludes_dangling (db : DB) (username : String)
    (u : UserRow) (hu : findUser db username = some u) :
    ((get_calendar_data db username).1 =
      (get_calendar_data
        { db with food_logs := (db.food_logs.filter
            (fun l => db.food_items.any (fun it => it.id == l.food_item_id))) }
        username).1) ∧
    ∀ d : DateT,
      (∀ l ∈ db.food_logs, l.user_id = u.id → l.date = d →
        ∀ it ∈ db.food_items, it.id ≠ l.food_item_id) →
      (calendarAgg (joinRows db u.id)).lookup d = none := by
  constructor
  · have hu' : findUser
        { db with food_logs := (db.food_logs.filter
            (fun l => db.food_items.any (fun it => it.id == l.food_item_id))) }
        username = some u := hu
    have hjoin : joinRows
        { db with food_logs := (db.food_logs.filter
            (fun l => db.food_items.any (fun it => it.id == l.food_item_id))) }
        u.id = joinRows db u.id := by
      show ((db.food_logs.filter
          (fun l => db.food_items.any (fun it => it.id == l.food_item_id))).filter
            (fun l => l.user_id == u.id)).flatMap
          (fun l => (db.food_items.filter (fun it => it.id == l.food_item_id)).map
            (fun it => (l.date, l.quantity * it.calories))) =
        joinRows db u.id
      have hswap : (db.food_logs.filter
          (fun l => db.food_items.any (fun it => it.id == l.food_item_id))).filter
            (fun l => l.user_id == u.id) =
          (db.food_logs.filter (fun l => l.user_id == u.id)).filter
            (fun l => db.food_items.any (fun it => it.id == l.food_item_id)) := by
        rw [List.filter_filter, List.filter_filter]
        exact List.filter_congr (fun a _ => Bool.and_comm _ _)
      rw [hswap]
      exact flatMap_filter_of_nil _ _ _ (by
        intro a _ hka
        have hall : ∀ it ∈ db.food_items, ¬ (it.id == a.food_item_id) = true := by
          simpa using List.any_eq_false.mp hka
        rw [List.filter_eq_nil_iff.mpr hall]
        rfl)
    simp only [get_calendar_data, hu, hu', hjoin]
  · intro d hdangling
    rw [calendarAgg_lookup]
    rw [if_neg ?hnm]
    case hnm =>
      intro hd
      obtain ⟨row, hrow, hrd⟩ := List.mem_map.mp hd
      obtain ⟨l, hl, hrow2⟩ := List.mem_flatMap.mp hrow
      obtain ⟨it, hit, hrow3⟩ := List.mem_map.mp hrow2
      have hl' := List.mem_filter.mp hl
      have hit' := List.mem_filter.mp hit
      have hdate : l.date = d := by rw [← hrow3] at hrd; exact hrd
      exact absurd (by simpa using hit'.2)
        (hdangling l hl'.1 (by simpa using hl'.2) hdate it hit'.1)

/-- Witness for C10: the user's only log references item id 99, which no
food item has; filtering it away leaves the response unchanged, and its
day (7) is absent from the calendar. -/
theorem C10_calendar_excludes_dangling_witness :
    ((get_calendar_data
        ⟨[⟨1, "alice", "pw"⟩], [⟨1, "apple", 5, 0, 0, 0, 0, "unit", 1⟩],
         [⟨1, 7, "lunch", 2, 1, 99⟩], 2, 2, 2⟩ "alice").1 =
      (get_calendar_data
        { users := [⟨1, "alice", "pw"⟩],
          food_items := [⟨1, "apple", 5, 0, 0, 0, 0, "unit", 1⟩],
          food_logs := [(⟨1, 7, "lunch", 2, 1, 99⟩ : FoodLogRow)].filter
            (fun l => [(⟨1, "apple", 5, 0, 0, 0, 0, "unit", 1⟩ : FoodItemRow)].any
              (fun it => it.id == l.food_item_id)),
          next_user_id := 2, next_item_id := 2, next_log_id := 2 } "alice").1) ∧
    (calendarAgg (joinRows
        ⟨[⟨1, "alice", "pw"⟩], [⟨1, "apple", 5, 0, 0, 0, 0, "unit", 1⟩],
         [⟨1, 7, "lunch", 2, 1, 99⟩], 2, 2, 2⟩ 1)).lookup 7 = none := by
  have h := C10_calendar_excludes_dangling
    ⟨[⟨1, "alice", "pw"⟩], [⟨1, "apple", 5, 0, 0, 0, 0, "unit", 1⟩],
     [⟨1, 7, "lunch", 2, 1, 99⟩], 2, 2, 2⟩ "alice" ⟨1, "alice", "pw"⟩ rfl
  exact ⟨h.1, h.2 7 (by decide)⟩

end CalorieTracker
